import Mathlib

/-!
Verification development for the ComfyUI-Claude-Chat tool-orchestration layer
(`claude_chat/claude_client.py`, `claude_chat/tools/base.py`).

The Python source is shallowly embedded: strings are `String`/`List Char`,
`json.loads` is modelled by an executable JSON reader, dictionaries are
association lists preserving insertion order (CPython semantics), and the
effectful subprocess / HTTP calls are modelled by passing their outcome as an
explicit parameter while the surrounding control flow (guards, exception
handlers, store updates, kill-on-timeout) is translated verbatim.
-/

namespace ClaudeChat

/-- Python `str.strip()` / regex `\s` whitespace characters (ASCII fragment). -/
def isPySpace (c : Char) : Bool :=
  c = ' ' || c = '\t' || c = '\n' || c = '\r' || c = Char.ofNat 11 || c = Char.ofNat 12

/-- Strip `isPySpace` characters from both ends of a character list
(Python `str.strip()`; also the effect of the greedy whitespace fringes in the
regex capture). -/
def pyStrip (s : List Char) : List Char :=
  ((s.dropWhile isPySpace).reverse.dropWhile isPySpace).reverse

/-- Python `str.strip()` on `String`. -/
def pyStripS (s : String) : String :=
  String.mk (pyStrip s.data)

/-- ASCII lowering of one character (the fragment of `str.lower()` the error
classification needs). -/
def asciiLower (c : Char) : Char :=
  if 'A' ≤ c && c ≤ 'Z' then Char.ofNat (c.toNat + 32) else c

/-- Does `pat` start the list `s`? -/
def startsWith : List Char → List Char → Bool
  | [], _ => true
  | _ :: _, [] => false
  | p :: ps, c :: cs => p = c && startsWith ps cs

/-- Index of the first occurrence of `pat` as a contiguous sublist of `s`
(Python `str.find` / the regex engine's left-to-right scan for a literal). -/
def findSub (pat : List Char) : List Char → Option Nat
  | [] => if startsWith pat [] then some 0 else none
  | c :: rest =>
    if startsWith pat (c :: rest) then some 0
    else (findSub pat rest).map (· + 1)

/-- Substring test on `String`s (`needle in haystack`). -/
def containsSub (needle haystack : String) : Bool :=
  (findSub needle.data haystack.data).isSome

/-- Emit a run of `k` pending newlines, collapsing runs of three or more to
exactly two (`re.sub(r'\n\x7b3,\x7d', '\n\n', ...)`). -/
def emitNlRun (k : Nat) : List Char :=
  if k ≥ 3 then ['\n', '\n'] else List.replicate k '\n'

/-- Worker for newline collapsing: `k` counts the newline run in progress. -/
def collapseNlGo (k : Nat) : List Char → List Char
  | [] => emitNlRun k
  | c :: rest =>
    if c = '\n' then collapseNlGo (k + 1) rest
    else emitNlRun k ++ c :: collapseNlGo 0 rest

/-- Model of `re.sub(r'\n\x7b3,\x7d', '\n\n', s)`: collapse runs of ≥3 newlines to two. -/
def collapseNl (s : List Char) : List Char :=
  collapseNlGo 0 s

/-!  ## JSON values and `json.loads`  -/

/-- JSON values as produced by Python `json.loads`.  Objects keep CPython dict
insertion order; numbers are kept symbolically (sign, integer digits, fraction
digits, exponent) so no float arithmetic is modelled. -/
inductive Json where
  | null : Json
  | bool (b : Bool) : Json
  | num (neg : Bool) (ip : List Char) (fp : List Char) (ex : Option (Bool × List Char)) : Json
  | str (s : String) : Json
  | arr (xs : List Json) : Json
  | obj (fields : List (String × Json)) : Json
deriving Repr

/-- Python truthiness of a JSON value (`if tool_name:` and
`result.get('execute_client_side')` checks). -/
def pyTruthy : Json → Bool
  | .null => false
  | .bool b => b
  | .num _ ip fp _ => !(ip.all (· = '0') && fp.all (· = '0'))
  | .str s => s ≠ ""
  | .arr xs => !xs.isEmpty
  | .obj fs => !fs.isEmpty

/-- Python type name of a JSON value (used in `AttributeError` messages). -/
def pyTypeName : Json → String
  | .null => "NoneType"
  | .bool _ => "bool"
  | .num _ _ fp ex => if fp.isEmpty && ex.isNone then "int" else "float"
  | .str _ => "str"
  | .arr _ => "list"
  | .obj _ => "dict"

/-- Python `dict.get(k, d)` on an insertion-ordered association list. -/
def objGet (fs : List (String × Json)) (k : String) (d : Json) : Json :=
  match fs.find? (fun kv => kv.1 = k) with
  | some kv => kv.2
  | none => d

/-- Dict insertion: a repeated key updates the value in place (CPython keeps
the first-insertion position), a fresh key is appended. -/
def insertField (fs : List (String × Json)) (k : String) (v : Json) : List (String × Json) :=
  if fs.any (fun kv => kv.1 = k) then
    fs.map (fun kv => if kv.1 = k then (k, v) else kv)
  else fs ++ [(k, v)]

/-- JSON-document whitespace (`json.loads` skips only these four characters). -/
def isJsonWs (c : Char) : Bool :=
  c = ' ' || c = '\t' || c = '\n' || c = '\r'

/-- Skip JSON whitespace. -/
def skipWs (s : List Char) : List Char :=
  s.dropWhile isJsonWs

/-- Is `c` a hexadecimal digit? -/
def isHexDig (c : Char) : Bool :=
  c.isDigit || ('a' ≤ c && c ≤ 'f') || ('A' ≤ c && c ≤ 'F')

/-- Numeric value of a hexadecimal digit. -/
def hexVal (c : Char) : Nat :=
  if c.isDigit then c.toNat - 48
  else if 'a' ≤ c && c ≤ 'f' then c.toNat - 87
  else c.toNat - 55

/-- Read the body of a JSON string after the opening quote, processing escape
sequences; strict mode rejects raw control characters. -/
def readStrAux : List Char → Except String (List Char × List Char)
  | [] => Except.error "Unterminated string"
  | '"' :: rest => Except.ok ([], rest)
  | '\\' :: 'u' :: h1 :: h2 :: h3 :: h4 :: rest =>
    if isHexDig h1 && isHexDig h2 && isHexDig h3 && isHexDig h4 then
      let n := hexVal h1 * 4096 + hexVal h2 * 256 + hexVal h3 * 16 + hexVal h4
      (readStrAux rest).map (fun p => (Char.ofNat n :: p.1, p.2))
    else Except.error "Invalid \\uXXXX escape"
  | '\\' :: e :: rest =>
    let c? : Option Char :=
      if e = '"' then some '"'
      else if e = '\\' then some '\\'
      else if e = '/' then some '/'
      else if e = 'b' then some (Char.ofNat 8)
      else if e = 'f' then some (Char.ofNat 12)
      else if e = 'n' then some '\n'
      else if e = 'r' then some '\r'
      else if e = 't' then some '\t'
      else none
    match c? with
    | some c => (readStrAux rest).map (fun p => (c :: p.1, p.2))
    | none => Except.error "Invalid escape"
  | c :: rest =>
    if c.toNat < 32 then Except.error "Invalid control character"
    else (readStrAux rest).map (fun p => (c :: p.1, p.2))

/-- Read a JSON number starting at `s` (sign, integer part without leading
zeros, optional fraction, optional exponent). -/
def readNum (s : List Char) : Except String (Json × List Char) :=
  let (neg, s1) := match s with
    | '-' :: t => (true, t)
    | _ => (false, s)
  let ip := s1.takeWhile Char.isDigit
  let s2 := s1.dropWhile Char.isDigit
  if ip.isEmpty then Except.error "Expecting value"
  else if ip.length > 1 && ip.headD '0' = '0' then Except.error "Expecting value"
  else
    let (fp, s3) := match s2 with
      | '.' :: t =>
        let d := t.takeWhile Char.isDigit
        (d, t.dropWhile Char.isDigit)
      | _ => ([], s2)
    if (match s2 with | '.' :: _ => fp.isEmpty | _ => false) then
      Except.error "Expecting fraction digits"
    else
      let (ex, s4) : Option (Bool × List Char) × List Char := match s3 with
        | 'e' :: t | 'E' :: t =>
          let (eneg, t1) := match t with
            | '+' :: u => (false, u)
            | '-' :: u => (true, u)
            | _ => (false, t)
          let d := t1.takeWhile Char.isDigit
          (some (eneg, d), t1.dropWhile Char.isDigit)
        | _ => (none, s3)
      match ex with
      | some (_, d) =>
        if d.isEmpty then Except.error "Expecting exponent digits"
        else Except.ok (Json.num neg ip fp ex, s4)
      | none => Except.ok (Json.num neg ip fp none, s4)

mutual

/-- Recursive-descent JSON reader (fuel-indexed; fuel exceeding the input
length never runs out). -/
def readValue : Nat → List Char → Except String (Json × List Char)
  | 0, _ => Except.error "Depth exceeded"
  | _ + 1, [] => Except.error "Expecting value"
  | fuel + 1, c :: rest =>
    if c = 'n' then
      match rest with
      | 'u' :: 'l' :: 'l' :: r => Except.ok (Json.null, r)
      | _ => Except.error "Expecting value"
    else if c = 't' then
      match rest with
      | 'r' :: 'u' :: 'e' :: r => Except.ok (Json.bool true, r)
      | _ => Except.error "Expecting value"
    else if c = 'f' then
      match rest with
      | 'a' :: 'l' :: 's' :: 'e' :: r => Except.ok (Json.bool false, r)
      | _ => Except.error "Expecting value"
    else if c = '"' then
      (readStrAux rest).map (fun p => (Json.str (String.mk p.1), p.2))
    else if c = '[' then
      match skipWs rest with
      | ']' :: r => Except.ok (Json.arr [], r)
      | r => readElems fuel r []
    else if c = '{' then
      match skipWs rest with
      | '}' :: r => Except.ok (Json.obj [], r)
      | r => readMembers fuel r []
    else if c = '-' || c.isDigit then
      readNum (c :: rest)
    else Except.error "Expecting value"

/-- Read the remaining elements of a JSON array (after `[` and whitespace). -/
def readElems : Nat → List Char → List Json → Except String (Json × List Char)
  | 0, _, _ => Except.error "Depth exceeded"
  | fuel + 1, s, acc =>
    match readValue fuel (skipWs s) with
    | Except.error e => Except.error e
    | Except.ok (v, rest) =>
      match skipWs rest with
      | ',' :: r => readElems fuel r (acc ++ [v])
      | ']' :: r => Except.ok (Json.arr (acc ++ [v]), r)
      | _ => Except.error "Expecting delimiter"

/-- Read the remaining members of a JSON object (after `\x7b` and whitespace). -/
def readMembers : Nat → List Char → List (String × Json) → Except String (Json × List Char)
  | 0, _, _ => Except.error "Depth exceeded"
  | fuel + 1, s, acc =>
    match skipWs s with
    | '"' :: r =>
      match readStrAux r with
      | Except.error e => Except.error e
      | Except.ok (kcs, r1) =>
        match skipWs r1 with
        | ':' :: r2 =>
          match readValue fuel (skipWs r2) with
          | Except.error e => Except.error e
          | Except.ok (v, r3) =>
            let acc1 := insertField acc (String.mk kcs) v
            match skipWs r3 with
            | ',' :: r4 => readMembers fuel r4 acc1
            | '}' :: r4 => Except.ok (Json.obj acc1, r4)
            | _ => Except.error "Expecting delimiter"
        | _ => Except.error "Expecting colon"
    | _ => Except.error "Expecting property name"

end

/-- Model of `json.loads`: read one JSON document, allowing surrounding whitespace and
rejecting trailing data. -/
def json_loads (s : String) : Except String Json :=
  let cs := skipWs s.data
  match readValue (cs.length + 1) cs with
  | Except.error e => Except.error e
  | Except.ok (v, rest) =>
    if (skipWs rest).isEmpty then Except.ok v else Except.error "Extra data"

/-!  ## Free-text tool-call extractor (`parse_tool_calls_from_text`)

The regex `\[TOOL_CALL\]\s*(.*?)\s*\[/TOOL_CALL\]` with `re.DOTALL` matches,
left to right and non-overlapping, each open marker followed by the *first*
close marker after it (the capture is lazy), the capture being the enclosed
text with its whitespace fringes consumed by the greedy `\s*` fringes.
`re.findall` yields the captures; `re.sub` with the same pattern removes the
matched spans.  `scanText` computes both in one pass.  -/

/-- The `[TOOL_CALL]` open marker. -/
def openMark : List Char := "[TOOL_CALL]".data

/-- The `[/TOOL_CALL]` close marker. -/
def closeMark : List Char := "[/TOOL_CALL]".data

/-- One left-to-right scan of the text: returns the text with every matched
`[TOOL_CALL]…[/TOOL_CALL]` span removed, and the list of captures (payloads,
whitespace-trimmed as the regex fringes do).  Fuel bounds the recursion; any
fuel above the text length is enough since each match consumes characters. -/
def scanText : Nat → List Char → List Char × List (List Char)
  | 0, s => (s, [])
  | fuel + 1, s =>
    match findSub openMark s with
    | none => (s, [])
    | some i =>
      let pre := s.take i
      let afterOpen := s.drop (i + openMark.length)
      match findSub closeMark afterOpen with
      | none => (s, [])
      | some j =>
        let payload := afterOpen.take j
        let rest := afterOpen.drop (j + closeMark.length)
        let (ctail, ps) := scanText fuel rest
        (pre ++ ctail, pyStrip payload :: ps)

/-- All delimited regions of a text: cleaned remainder (before the final
`.strip()` and newline collapsing) and the ordered payload list. -/
def extractRegions (s : List Char) : List Char × List (List Char) :=
  scanText (s.length + 1) s

/-- One parsed tool call (the dict appended to `tool_calls`).  `name` is the
raw JSON value of the `tool` field (the source only checks its truthiness). -/
structure ToolCall where
  id : String
  name : Json
  action : Json
  params : List (String × Json)
  input : List (String × Json)
deriving Repr

/-- The Python exceptions the extractor's loop body can raise past the
`except json.JSONDecodeError` handler: `.get` on a non-dict value. -/
inductive PyExn where
  | attributeError (v : Json)
deriving Repr

/-- The message `str(e)` of a modelled exception. -/
def pyExnMessage : PyExn → String
  | .attributeError v => "'" ++ pyTypeName v ++ "' object has no attribute 'get'"

/-- Loop body for match `i`: parse the payload (`match.strip()` then
`json.loads`); a JSON decode failure is caught (`none` = skipped); a payload
parsing to a non-dict raises `AttributeError` at `tool_data.get('tool', '')`;
a dict with a falsy `tool` field is skipped by `if tool_name:`. -/
def processMatch (i : Nat) (m : List Char) : Except PyExn (Option ToolCall) :=
  match json_loads (String.mk (pyStrip m)) with
  | Except.error _ => Except.ok none
  | Except.ok (Json.obj fields) =>
    let toolName := objGet fields "tool" (Json.str "")
    let params := fields.filter (fun kv => kv.1 ≠ "tool")
    if pyTruthy toolName then
      Except.ok (some { id := "cli_tool_" ++ toString i, name := toolName,
                        action := toolName, params := params, input := params })
    else Except.ok none
  | Except.ok v => Except.error (PyExn.attributeError v)

/-- The `for i, match in enumerate(matches)` loop; an uncaught exception in
any iteration aborts the whole call. -/
def toolCallLoop (i : Nat) : List (List Char) → Except PyExn (List ToolCall)
  | [] => Except.ok []
  | m :: rest =>
    match processMatch i m with
    | Except.error e => Except.error e
    | Except.ok none => toolCallLoop (i + 1) rest
    | Except.ok (some tc) => (toolCallLoop (i + 1) rest).map (tc :: ·)

/-- The function `parse_tool_calls_from_text`: extract `[TOOL_CALL]` regions, parse each,
then strip the cleaned text and collapse newline runs.  The result is
`Except` because the loop can raise `AttributeError` (see `processMatch`). -/
def parse_tool_calls_from_text (text : String) : Except PyExn (String × List ToolCall) :=
  match toolCallLoop 0 (extractRegions text.data).2 with
  | Except.error e => Except.error e
  | Except.ok tcs =>
    Except.ok (String.mk (collapseNl (pyStrip (extractRegions text.data).1)), tcs)

/-- Does a payload make the loop body raise (parses to a non-dict JSON value)? -/
def payloadRaises (m : List Char) : Bool :=
  match json_loads (String.mk (pyStrip m)) with
  | Except.ok (Json.obj _) => false
  | Except.ok _ => true
  | Except.error _ => false

/-- Is a payload well formed: parses to a JSON object whose `tool` field is
present and truthy? -/
def payloadWellFormed (m : List Char) : Bool :=
  match json_loads (String.mk (pyStrip m)) with
  | Except.ok (Json.obj fields) => pyTruthy (objGet fields "tool" (Json.str ""))
  | _ => false

/-- Modelled from the spec's amended extraction contract: the surviving
invocation built from the region with index `i` (among *all* matched regions)
or `none` when the region is skipped. -/
def specSurvivor (i : Nat) (m : List Char) : Option ToolCall :=
  match json_loads (String.mk (pyStrip m)) with
  | Except.ok (Json.obj fields) =>
    let toolName := objGet fields "tool" (Json.str "")
    let params := fields.filter (fun kv => kv.1 ≠ "tool")
    if pyTruthy toolName then
      some { id := "cli_tool_" ++ toString i, name := toolName,
             action := toolName, params := params, input := params }
    else none
  | _ => none

/-- Spec-level characterization of the surviving invocations: enumerate all
matched regions from 0 and keep the survivors, ids recording region indices. -/
def specCalls (text : String) : List ToolCall :=
  (List.enumFrom 0 (extractRegions text.data).2).filterMap
    (fun p => specSurvivor p.1 p.2)

/-!  ## Auth detection and chat routing (`_detect_auth_method`, `chat`)  -/

/-- The method `ClaudeClient._detect_auth_method`.  Inputs: the preference string
(`'api'` / `'max'`, anything else is auto), whether `HAS_ANTHROPIC` and the
`ANTHROPIC_API_KEY` env var are both present (`has_api_key`), whether a
credentials file with `subscriptionType` `max`/`pro` was loaded (`cli_cred`),
and whether the `claude` binary answered `--version` (`has_claude_cli`).
`_has_max_plan` is their conjunction as in the source. -/
def detect_auth_method (pref : String) (has_api_key cli_cred has_claude_cli : Bool) : String :=
  let has_max_plan := cli_cred && has_claude_cli
  if pref = "api" then
    if has_api_key then "anthropic_api" else "none"
  else if pref = "max" then
    if has_max_plan then "max_plan"
    else if cli_cred then "max_plan_no_cli"
    else "none"
  else
    if has_max_plan then "max_plan"
    else if has_api_key then "anthropic_api"
    else if cli_cred then "max_plan_no_cli"
    else "none"

/-- Where `ClaudeClient.chat` sends one request. -/
inductive ChatRoute where
  | unconfiguredMessage : ChatRoute
  | apiPath : ChatRoute
  | cliPath : ChatRoute
  | maxPlanNoCliMessage : ChatRoute
deriving Repr, DecidableEq

/-- The routing decision of `ClaudeClient.chat`, and the `auth_method` field
after the call: `chat` never assigns `self.auth_method`, so the second
component is the input mode unchanged. -/
def chat_route (auth_method pref : String) (has_api_key has_image : Bool) :
    ChatRoute × String :=
  if auth_method = "none" then (ChatRoute.unconfiguredMessage, auth_method)
  else
    let use_api_for_image :=
      has_image && pref = "auto" && auth_method = "max_plan" && has_api_key
    if use_api_for_image then (ChatRoute.apiPath, auth_method)
    else if auth_method = "max_plan" then (ChatRoute.cliPath, auth_method)
    else if auth_method = "max_plan_no_cli" then (ChatRoute.maxPlanNoCliMessage, auth_method)
    else (ChatRoute.apiPath, auth_method)

/-!  ## Workflow summary (`_summarize_workflow`)  -/

/-- One workflow node as the summarizer reads it: the `type` and `id` entries
(absent allowed), and the `widgets_values` entry when present. -/
structure WNode where
  typ : Option Json
  id : Option Json
  widgets_values : Option Json
deriving Repr

/-- One entry of the summary's `nodes` list. -/
structure NodeInfo where
  typ : Json
  id : Json
  params : Option Json
deriving Repr

/-- The summary dict built by `_summarize_workflow`. -/
structure WorkflowSummary where
  node_count : Nat
  nodes : List NodeInfo
  note : Option String
deriving Repr

/-- The `node_info` dict for one node: `node.get('type', 'Unknown')`,
`node.get('id')` (default `None`), `params` present iff `widgets_values` is. -/
def nodeInfoOf (n : WNode) : NodeInfo :=
  { typ := n.typ.getD (Json.str "Unknown"),
    id := n.id.getD Json.null,
    params := n.widgets_values }

/-- The method `_summarize_workflow` on `workflow.get('nodes', [])`: count all nodes,
keep the first 20, and add the omission note iff more than 20 exist. -/
def summarize_workflow (nodes : List WNode) : WorkflowSummary :=
  { node_count := nodes.length,
    nodes := (nodes.take 20).map nodeInfoOf,
    note :=
      if nodes.length > 20 then
        some ("... and " ++ toString (nodes.length - 20) ++ " more nodes")
      else none }

/-!  ## Pending-conversation store and the two continuation paths

The subprocess and HTTP interactions cannot run inside the embedding, so the
outcome of one external call is an explicit parameter (`CliOutcome`,
`ApiResponse`) and the embedding reproduces the control flow around it:
guards, store updates, exception handlers, and whether the spawned process is
killed.  Conversation ids (`id(...)` in the source) are opaque `Nat`s. -/

/-- A blocks list of a structured-API response. -/
inductive Block where
  | text (t : String) : Block
  | tool_use (id : String) (name : String) (input : List (String × Json)) : Block
deriving Repr

/-- A structured-API response: stop reason plus content blocks. -/
structure ApiResponse where
  stop_reason : String
  content : List Block
deriving Repr

/-- A `tool_result` content entry (the `is_error` key is only ever set to
`True`; its absence is modelled as `false`). -/
structure ToolResultMsg where
  tool_use_id : String
  content : String
  is_error : Bool
deriving Repr

/-- A message of the API conversation history. -/
inductive Msg where
  | plain (role : String) (content : String) : Msg
  | assistantContent (blocks : List Block) : Msg
  | toolResults (rs : List ToolResultMsg) : Msg
deriving Repr

/-- One entry of `self._pending_conversations`: the CLI shape stores
`original_prompt` / `messages` / `response_text`; the API shape stores the
message history and the raw response (the client handle carries no state we
model). -/
inductive PendingConv where
  | cli (original_prompt : String) (messages : List Msg) (response_text : String)
  | api (messages : List Msg) (response : ApiResponse)
deriving Repr

/-- The store: an insertion-ordered finite map from conversation id. -/
abbrev Store := List (Nat × PendingConv)

/-- Test `cid in store`. -/
def storeHas (store : Store) (cid : Nat) : Bool :=
  store.any (fun e => e.1 = cid)

/-- Lookup `store[cid]`. -/
def storeGet (store : Store) (cid : Nat) : Option PendingConv :=
  (store.find? (fun e => e.1 = cid)).map (·.2)

/-- Assignment `store[cid] = conv` (update in place or append, CPython dict order). -/
def storeSet (store : Store) (cid : Nat) (conv : PendingConv) : Store :=
  if store.any (fun e => e.1 = cid) then
    store.map (fun e => if e.1 = cid then (cid, conv) else e)
  else store ++ [(cid, conv)]

/-- Removal `store.pop(cid, None)`. -/
def storePop (store : Store) (cid : Nat) : Store :=
  store.filter (fun e => e.1 ≠ cid)

/-- Outcome of one `claude` subprocess run. -/
inductive CliOutcome where
  | completes (returncode : Int) (stdout : String) (stderr : String) : CliOutcome
  | timesOut : CliOutcome
deriving Repr

/-- What became of the spawned subprocess when the call returned. -/
inductive ProcFate where
  | exited : ProcFate
  | killed : ProcFate
  | leftRunning : ProcFate
deriving Repr, DecidableEq

/-- Escape one character for `json.dumps` (default `ensure_ascii`). -/
def dumpsEscape (c : Char) : List Char :=
  if c = '"' then ['\\', '"']
  else if c = '\\' then ['\\', '\\']
  else if c = '\n' then ['\\', 'n']
  else if c = '\r' then ['\\', 'r']
  else if c = '\t' then ['\\', 't']
  else if c = Char.ofNat 8 then ['\\', 'b']
  else if c = Char.ofNat 12 then ['\\', 'f']
  else if c.toNat < 32 || c.toNat > 126 then
    let hex := fun (n : Nat) =>
      if n < 10 then Char.ofNat (48 + n) else Char.ofNat (87 + n)
    ['\\', 'u', hex (c.toNat / 4096 % 16), hex (c.toNat / 256 % 16),
     hex (c.toNat / 16 % 16), hex (c.toNat % 16)]
  else [c]

/-- The `json.dumps` rendering of a string. -/
def dumpsStr (s : String) : String :=
  String.mk ('"' :: s.data.foldr (fun c acc => dumpsEscape c ++ acc) ['"'])

/-- Render the symbolic number back to its literal text. -/
def dumpsNum (neg : Bool) (ip fp : List Char) (ex : Option (Bool × List Char)) : String :=
  String.mk ((if neg then ['-'] else []) ++ ip ++
    (if fp.isEmpty then [] else '.' :: fp) ++
    (match ex with
     | none => []
     | some (eneg, d) => 'e' :: (if eneg then ['-'] else []) ++ d))

mutual

/-- Model of `json.dumps` with default separators. -/
def jsonDumps : Json → String
  | Json.null => "null"
  | Json.bool true => "true"
  | Json.bool false => "false"
  | Json.num neg ip fp ex => dumpsNum neg ip fp ex
  | Json.str s => dumpsStr s
  | Json.arr xs => "[" ++ dumpsArr xs ++ "]"
  | Json.obj fs => "\x7b" ++ dumpsObj fs ++ "\x7d"

/-- Comma-joined array elements. -/
def dumpsArr : List Json → String
  | [] => ""
  | [x] => jsonDumps x
  | x :: y :: rest => jsonDumps x ++ ", " ++ dumpsArr (y :: rest)

/-- Comma-joined object members. -/
def dumpsObj : List (String × Json) → String
  | [] => ""
  | [(k, v)] => dumpsStr k ++ ": " ++ jsonDumps v
  | (k, v) :: l :: rest => dumpsStr k ++ ": " ++ jsonDumps v ++ ", " ++ dumpsObj (l :: rest)

end

mutual

/-- Python `str()` of a JSON value (`None` / `True` / `False` spellings, a
bare string for `str`, single-quoted repr inside containers). -/
def pyStrVal : Json → String
  | Json.null => "None"
  | Json.bool true => "True"
  | Json.bool false => "False"
  | Json.num neg ip fp ex => dumpsNum neg ip fp ex
  | Json.str s => s
  | Json.arr xs => "[" ++ pyReprList xs ++ "]"
  | Json.obj fs => "\x7b" ++ pyReprFields fs ++ "\x7d"

/-- Python `repr()` of a JSON value (strings single-quoted). -/
def pyReprVal : Json → String
  | Json.null => "None"
  | Json.bool true => "True"
  | Json.bool false => "False"
  | Json.num neg ip fp ex => dumpsNum neg ip fp ex
  | Json.str s => "'" ++ s ++ "'"
  | Json.arr xs => "[" ++ pyReprList xs ++ "]"
  | Json.obj fs => "\x7b" ++ pyReprFields fs ++ "\x7d"

/-- Comma-joined element reprs. -/
def pyReprList : List Json → String
  | [] => ""
  | [x] => pyReprVal x
  | x :: y :: rest => pyReprVal x ++ ", " ++ pyReprList (y :: rest)

/-- Comma-joined member reprs. -/
def pyReprFields : List (String × Json) → String
  | [] => ""
  | [(k, v)] => "'" ++ k ++ "': " ++ pyReprVal v
  | (k, v) :: l :: rest => "'" ++ k ++ "': " ++ pyReprVal v ++ ", " ++ pyReprFields (l :: rest)

end

/-!  ## Tool registry (`tools/base.py`)  -/

/-- A registered tool's `execute` delegate (which may itself raise, hence
`Except`). -/
abbrev ToolDelegate := List (String × Json) → Except String Json

/-- The registry `ToolRegistry._tools`: name → delegate. -/
abbrev Registry := List (String × ToolDelegate)

/-- Lookup `ToolRegistry.get`. -/
def registryGet (reg : Registry) (name : String) : Option ToolDelegate :=
  (reg.find? (fun e => e.1 = name)).map (·.2)

/-- The method `ToolRegistry.execute`: raises `ValueError("Unknown tool: <name>")` when
the name is unregistered, otherwise runs the delegate. -/
def registryExecute (reg : Registry) (name : String) (input : List (String × Json)) :
    Except String Json :=
  match registryGet reg name with
  | none => Except.error ("Unknown tool: " ++ name)
  | some d => d input

/-!  ## Structured-API tool handling (`_handle_tool_use`,
`continue_with_tool_results`)  -/

/-- A client-side pending tool entry built by `_handle_tool_use`. -/
structure PendingClientTool where
  id : String
  name : String
  action : Json
  params : Json
  input : List (String × Json)
deriving Repr

/-- The per-block body of `_handle_tool_use`'s loop: text blocks are ignored;
for a `tool_use` block the registry delegate runs under `try`, an exception
becomes an `is_error` tool result, a dict result with a truthy
`execute_client_side` becomes a pending client-side call, anything else a
plain tool result (`json.dumps` unless already a string). -/
def processBlock (reg : Registry) : Block → Option (PendingClientTool ⊕ ToolResultMsg)
  | Block.text _ => none
  | Block.tool_use id name input =>
    match registryExecute reg name input with
    | Except.error e => some (Sum.inr { tool_use_id := id, content := "Error: " ++ e, is_error := true })
    | Except.ok result =>
      match result with
      | Json.obj fs =>
        if pyTruthy (objGet fs "execute_client_side" Json.null) then
          some (Sum.inl { id := id, name := name, action := objGet fs "action" Json.null,
                          params := objGet fs "params" (Json.obj []), input := input })
        else some (Sum.inr { tool_use_id := id, content := jsonDumps result, is_error := false })
      | Json.str s => some (Sum.inr { tool_use_id := id, content := s, is_error := false })
      | _ => some (Sum.inr { tool_use_id := id, content := jsonDumps result, is_error := false })

/-- Result of `_handle_tool_use`: a dict carrying either pending client-side
calls or a final `response` text. -/
inductive HtuResult where
  | pending (calls : List PendingClientTool) (conversation_id : Nat) : HtuResult
  | response (text : String) : HtuResult
deriving Repr

/-- First text block of a response, if any (`hasattr(block, 'text')`). -/
def firstTextBlock : List Block → Option String
  | [] => none
  | Block.text t :: _ => some t
  | Block.tool_use _ _ _ :: rest => firstTextBlock rest

/-- The method `_handle_tool_use`.  The next server response of the internal loop comes
from `script` (the modelled sequence of outcomes of further
`client.messages.create` calls); `newCid` stands for `id(messages)`.  An
exhausted script means the unmodelled external call never returns a further
response; the embedding then yields an empty response text. -/
def handle_tool_use (reg : Registry) (store : Store) (newCid : Nat)
    (messages : List Msg) (response : ApiResponse) (script : List ApiResponse) :
    Store × HtuResult :=
    let processed := response.content.filterMap (processBlock reg)
    let pending := processed.filterMap (fun r => match r with | Sum.inl p => some p | _ => none)
    let serverResults := processed.filterMap (fun r => match r with | Sum.inr m => some m | _ => none)
    if !pending.isEmpty then
      (storeSet store newCid (PendingConv.api messages response), HtuResult.pending pending newCid)
    else if !serverResults.isEmpty then
      let messages1 := messages ++ [Msg.assistantContent response.content, Msg.toolResults serverResults]
      match script with
      | [] => (store, HtuResult.response "")
      | next :: rest =>
        if next.stop_reason = "tool_use" then
          handle_tool_use reg store newCid messages1 next rest
        else
          match firstTextBlock next.content with
          | some t => (store, HtuResult.response t)
          | none => (store, HtuResult.response "Claude completed tool use but returned no text.")
    else (store, HtuResult.response "Claude completed tool use but returned no text.")
termination_by script.length

/-- A caller-supplied tool result handed to a continuation call. -/
structure ToolResultInput where
  tool_use_id : String
  result : Json
deriving Repr

/-- The `content` text for one continuation tool result: `json.dumps` for dicts,
Python `str()` otherwise. -/
def resultContentOf (r : Json) : String :=
  match r with
  | Json.obj _ => jsonDumps r
  | _ => pyStrVal r

/-- What `continue_with_tool_results` returns: a plain string, or the pending
dict forwarded from `_handle_tool_use`, or an exception that escapes (there
is no handler in the source). -/
inductive ApiContinueResult where
  | text (s : String) : ApiContinueResult
  | pending (calls : List PendingClientTool) (conversation_id : Nat) : ApiContinueResult
  | raised (e : String) : ApiContinueResult
deriving Repr

/-- The method `continue_with_tool_results`.  Here `next` is the outcome of the one
`client.messages.create` call the function always performs after the guard;
`script` feeds `_handle_tool_use`'s internal loop; `newCid` stands for the
`id(messages)` that `_handle_tool_use` would coin. -/
def continue_with_tool_results (reg : Registry) (store : Store) (cid : Nat)
    (tool_results : List ToolResultInput) (newCid : Nat)
    (next : ApiResponse) (script : List ApiResponse) : Store × ApiContinueResult :=
  match storeGet store cid with
  | none => (store, ApiContinueResult.text "Error: Conversation not found. Please start a new message.")
  | some conv =>
    let store1 := storePop store cid
    match conv with
    | PendingConv.cli _ _ _ =>
      -- a CLI-shaped entry has no 'response' key: `conv['response']` raises
      (store1, ApiContinueResult.raised "KeyError: 'response'")
    | PendingConv.api messages response =>
      let result_content := tool_results.map
        (fun tr => { tool_use_id := tr.tool_use_id,
                     content := resultContentOf tr.result, is_error := false : ToolResultMsg })
      let messages1 := messages ++ [Msg.assistantContent response.content, Msg.toolResults result_content]
      if next.stop_reason = "tool_use" then
        match handle_tool_use reg store1 newCid messages1 next script with
        | (store2, HtuResult.pending calls cid2) => (store2, ApiContinueResult.pending calls cid2)
        | (store2, HtuResult.response s) => (store2, ApiContinueResult.text s)
      else
        match firstTextBlock next.content with
        | some t => (store1, ApiContinueResult.text t)
        | none => (store1, ApiContinueResult.text "Claude completed the request.")

/-!  ## CLI chat and CLI continuation (`_chat_via_cli`,
`continue_cli_with_tool_results`)

Prompt construction only feeds the external process, whose behavior is the
explicit `CliOutcome` parameter, so the prompt strings are not rebuilt here;
everything the caller or the store observes is. -/

/-- What `_chat_via_cli` returns. -/
inductive ChatCliResult where
  | text (s : String) : ChatCliResult
  | pending (calls : List ToolCall) (conversation_id : Nat) (response_text : String) : ChatCliResult
deriving Repr

/-- The method `_chat_via_cli`.  Here `cfgOk` is the outcome of `_prepare_cli_config`,
`newCid` stands for `id(message)`, `histMsgs` is the history stored alongside
a pending conversation.  The third component records the spawned subprocess's
fate (`none` when no process was spawned). -/
def chat_via_cli (store : Store) (cfgOk : Bool) (message : String)
    (histMsgs : List Msg) (newCid : Nat) (use_tools : Bool)
    (outcome : CliOutcome) : Store × ChatCliResult × Option ProcFate :=
  if !cfgOk then
    (store, ChatCliResult.text ("⚠️ Failed to prepare Claude CLI configuration.\n\n" ++
      "Make sure credentials are mounted at /root/.claude/"), none)
  else
    match outcome with
    | CliOutcome.timesOut =>
      -- proc.kill(); proc.wait(); raise TimeoutExpired — caught below
      (store, ChatCliResult.text "⚠️ Request timed out. Please try a shorter question.",
       some ProcFate.killed)
    | CliOutcome.completes rc out err =>
      if rc = 0 then
        let response := pyStripS out
        if response ≠ "" then
          if use_tools then
            match parse_tool_calls_from_text response with
            | Except.error e =>
              -- AttributeError from the extractor, caught by `except Exception`
              (store, ChatCliResult.text ("Error calling Claude: " ++ pyExnMessage e),
               some ProcFate.exited)
            | Except.ok (clean, tcs) =>
              if !tcs.isEmpty then
                (storeSet store newCid (PendingConv.cli message histMsgs clean),
                 ChatCliResult.pending tcs newCid clean, some ProcFate.exited)
              else (store, ChatCliResult.text clean, some ProcFate.exited)
          else (store, ChatCliResult.text response, some ProcFate.exited)
        else (store, ChatCliResult.text "Claude returned an empty response.", some ProcFate.exited)
      else
        let error_msg := if pyStripS err ≠ "" then pyStripS err else "Unknown error"
        let lowered := String.mk (error_msg.data.map asciiLower)
        let msg :=
          if containsSub "not authenticated" lowered then
            "⚠️ Claude CLI is not authenticated.\n\n" ++
            "Please run `claude login` on the host machine and restart the container."
          else if containsSub "rate limit" lowered then
            "⚠️ Rate limit reached. Please wait a moment and try again."
          else "Claude CLI error: " ++ error_msg
        (store, ChatCliResult.text msg, some ProcFate.exited)

/-- What `continue_cli_with_tool_results` returns. -/
inductive CliContinueResult where
  | errorDict (msg : String) : CliContinueResult
  | pending (calls : List ToolCall) (conversation_id : Nat) (response_text : String) : CliContinueResult
  | responseDict (msg : String) : CliContinueResult
deriving Repr

/-- Accessor `conv.get('original_prompt', '')`. -/
def convOriginalPrompt : PendingConv → String
  | PendingConv.cli p _ _ => p
  | PendingConv.api _ _ => ""

/-- Accessor `conv.get('messages', [])` (both store shapes carry a `messages` key). -/
def convMessages : PendingConv → List Msg
  | PendingConv.cli _ m _ => m
  | PendingConv.api m _ => m

/-- The method `continue_cli_with_tool_results`.  The guard answers unknown ids before
anything runs; on timeout the entry is popped and a timeout error returned,
but — unlike `_chat_via_cli` — the subprocess is *not* killed. -/
def continue_cli_with_tool_results (store : Store) (cid : Nat)
    (_tool_results : List ToolResultInput) (cfgOk : Bool)
    (outcome : CliOutcome) : Store × CliContinueResult × Option ProcFate :=
  match storeGet store cid with
  | none => (store, CliContinueResult.errorDict "Conversation not found. Please start a new message.", none)
  | some conv =>
    if !cfgOk then
      (store, CliContinueResult.errorDict "Failed to prepare CLI configuration", none)
    else
      match outcome with
      | CliOutcome.timesOut =>
        -- except asyncio.TimeoutError: pop and report; no kill, no wait
        (storePop store cid, CliContinueResult.errorDict "Request timed out",
         some ProcFate.leftRunning)
      | CliOutcome.completes rc out err =>
        if rc = 0 ∧ pyStripS out ≠ "" then
          match parse_tool_calls_from_text (pyStripS out) with
          | Except.error e =>
            -- except Exception: pop and report str(e)
            (storePop store cid, CliContinueResult.errorDict (pyExnMessage e),
             some ProcFate.exited)
          | Except.ok (clean, tcs) =>
            if !tcs.isEmpty then
              (storeSet store cid (PendingConv.cli (convOriginalPrompt conv) (convMessages conv) clean),
               CliContinueResult.pending tcs cid clean, some ProcFate.exited)
            else
              (storePop store cid, CliContinueResult.responseDict clean, some ProcFate.exited)
        else
          (storePop store cid,
           CliContinueResult.errorDict (if pyStripS err ≠ "" then pyStripS err else "CLI returned empty response"),
           some ProcFate.exited)

/-!  ## Helper lemmas  -/

/-- One loop iteration: a non-raising payload yields exactly the spec-level
survivor; a raising payload yields the `AttributeError`. -/
theorem processMatch_spec (i : Nat) (m : List Char) :
    (payloadRaises m = false → processMatch i m = Except.ok (specSurvivor i m)) ∧
    (payloadRaises m = true → ∃ v, processMatch i m = Except.error (PyExn.attributeError v)) := by
  unfold payloadRaises processMatch specSurvivor
  cases json_loads (String.mk (pyStrip m)) with
  | error e => exact ⟨fun _ => rfl, fun hc => by simp at hc⟩
  | ok v =>
    cases v with
    | obj fs =>
      refine ⟨fun _ => ?_, fun hc => by simp at hc⟩
      by_cases ht : pyTruthy (objGet fs "tool" (Json.str "")) = true <;> simp [ht]
    | null => exact ⟨fun hc => by simp at hc, fun _ => ⟨_, rfl⟩⟩
    | bool b => exact ⟨fun hc => by simp at hc, fun _ => ⟨_, rfl⟩⟩
    | num neg ip fp ex => exact ⟨fun hc => by simp at hc, fun _ => ⟨_, rfl⟩⟩
    | str s => exact ⟨fun hc => by simp at hc, fun _ => ⟨_, rfl⟩⟩
    | arr xs => exact ⟨fun hc => by simp at hc, fun _ => ⟨_, rfl⟩⟩

/-- The extractor's loop succeeds whenever no region payload parses to a
non-dict value, and then returns exactly the enumerated survivors. -/
theorem toolCallLoop_total (ps : List (List Char)) :
    ∀ i, (∀ m ∈ ps, payloadRaises m = false) →
      toolCallLoop i ps =
        Except.ok ((List.enumFrom i ps).filterMap (fun p => specSurvivor p.1 p.2)) := by
  induction ps with
  | nil => exact fun i _ => rfl
  | cons m rest ih =>
    intro i h
    have hm := (processMatch_spec i m).1 (h m (by simp))
    have hrest := ih (i + 1) (fun x hx => h x (by simp [hx]))
    cases hs : specSurvivor i m with
    | none =>
      rw [hs] at hm
      simp [toolCallLoop, hm, hrest, List.enumFrom, hs]
    | some tc =>
      rw [hs] at hm
      simp [toolCallLoop, hm, hrest, List.enumFrom, hs, Except.map]

/-- A successful loop run implies no payload raised, and pins down its value. -/
theorem toolCallLoop_ok_eq (ps : List (List Char)) :
    ∀ i l, toolCallLoop i ps = Except.ok l →
      l = (List.enumFrom i ps).filterMap (fun p => specSurvivor p.1 p.2) := by
  induction ps with
  | nil =>
    intro i l h
    simp only [toolCallLoop] at h
    cases h
    rfl
  | cons m rest ih =>
    intro i l h
    by_cases hb : payloadRaises m = true
    · obtain ⟨v, hv⟩ := (processMatch_spec i m).2 hb
      rw [toolCallLoop, hv] at h
      cases h
    · have hm := (processMatch_spec i m).1 (by simpa using hb)
      rw [toolCallLoop, hm] at h
      cases hs : specSurvivor i m with
      | none =>
        rw [hs] at h
        simp [List.enumFrom, hs, ih i.succ l h]
      | some tc =>
        rw [hs] at h
        cases hl : toolCallLoop (i + 1) rest with
        | error e => rw [hl] at h; cases h
        | ok l2 =>
          rw [hl] at h
          cases h
          simp [List.enumFrom, hs, ih i.succ l2 hl]

/-!  ## C1 — auth decision table  -/

/-- C1, counterexample: with `preference = auto`, an API credential, a CLI
credential and no CLI binary, `_detect_auth_method` resolves to
`anthropic_api`, not to `max_plan_no_cli` as the claim states. -/
theorem C1_counterexample :
    detect_auth_method "auto" true true false = "anthropic_api" ∧
    detect_auth_method "auto" true true false ≠ "max_plan_no_cli" := by
  constructor
  · rfl
  · decide

/-- C1 (amended): the auth decision is a pure function of
`(preference, api credential, cli credential, cli binary)`:
`(auto, T, T, T) → max_plan`; `(auto, T, T, F) → anthropic_api` (the API
credential wins whenever the CLI binary is missing); `(auto, T, F, *) →
anthropic_api`; `(auto, F, F, *) → none`; `(api, F, *, *) → none`; the
`max_plan_no_cli` state is reached under `auto` only when no API credential
exists, e.g. `(auto, F, T, F)`. -/
theorem C1_auth_resolution :
    detect_auth_method "auto" true true true = "max_plan" ∧
    detect_auth_method "auto" true true false = "anthropic_api" ∧
    detect_auth_method "auto" true false true = "anthropic_api" ∧
    detect_auth_method "auto" true false false = "anthropic_api" ∧
    detect_auth_method "auto" false false true = "none" ∧
    detect_auth_method "auto" false false false = "none" ∧
    detect_auth_method "api" false true true = "none" ∧
    detect_auth_method "api" false true false = "none" ∧
    detect_auth_method "api" false false true = "none" ∧
    detect_auth_method "api" false false false = "none" ∧
    detect_auth_method "auto" false true false = "max_plan_no_cli" :=
  ⟨rfl, rfl, rfl, rfl, rfl, rfl, rfl, rfl, rfl, rfl, rfl⟩

/-!  ## C2 — malformed payloads and extractor robustness  -/

/-- C2, counterexample: a delimited region whose payload is `null` parses as
JSON but is not an object; `tool_data.get` then raises `AttributeError`,
which no handler catches — the whole extraction aborts, contradicting the
claim's "never raises … for any payload content (including payloads that
parse as JSON but are not objects)". -/
theorem C2_counterexample :
    parse_tool_calls_from_text "[TOOL_CALL]null[/TOOL_CALL]" =
      Except.error (PyExn.attributeError Json.null) := rfl

/-- C2 (amended): a delimited region whose payload fails to parse as JSON, or
parses to an object lacking a truthy `tool` field, is skipped and extraction
of the remaining regions still succeeds; extraction never raises provided no
region's payload parses to a non-object JSON value (such payloads raise
`AttributeError` and abort the call). -/
theorem C2_malformed_skipped (text : String)
    (h : ∀ m ∈ (extractRegions text.data).2, payloadRaises m = false) :
    ∃ r, parse_tool_calls_from_text text = Except.ok r := by
  have hl := toolCallLoop_total (extractRegions text.data).2 0 h
  exact ⟨_, by unfold parse_tool_calls_from_text; rw [hl]⟩

/-- C2, witness: a text with one unparsable region and one well-formed region
satisfies the hypothesis, and extraction indeed succeeds on it. -/
theorem C2_witness :
    (∀ m ∈ (extractRegions ("[TOOL_CALL]x[/TOOL_CALL][TOOL_CALL]" ++
        "\x7b\"tool\": \"a\"\x7d[/TOOL_CALL]").data).2, payloadRaises m = false) ∧
    (∃ r, parse_tool_calls_from_text ("[TOOL_CALL]x[/TOOL_CALL][TOOL_CALL]" ++
        "\x7b\"tool\": \"a\"\x7d[/TOOL_CALL]") = Except.ok r) :=
  ⟨by decide, C2_malformed_skipped _ (by decide)⟩

/-!  ## C5 — surviving invocations, order and ids  -/

/-- C5, counterexample: when the first region is malformed, the 0th surviving
invocation carries sequence number 1, not 0 as the claim requires. -/
theorem C5_counterexample :
    (parse_tool_calls_from_text
        "[TOOL_CALL]bad[/TOOL_CALL][TOOL_CALL]\x7b\"tool\": \"b\"\x7d[/TOOL_CALL]").map
      (fun r => r.2.map ToolCall.id) = Except.ok ["cli_tool_1"] := rfl

/-- C5 (amended): whenever extraction succeeds it returns exactly the
well-formed invocations in original region order, each carrying the id
`cli_tool_<i>` where `i` is its region's index among *all* matched regions —
so skipped malformed regions leave gaps in the surviving id sequence rather
than the ids being renumbered over survivors. -/
theorem C5_ids_record_region_index (text clean : String) (tcs : List ToolCall)
    (h : parse_tool_calls_from_text text = Except.ok (clean, tcs)) :
    tcs = specCalls text := by
  unfold parse_tool_calls_from_text at h
  cases hl : toolCallLoop 0 (extractRegions text.data).2 with
  | error e => rw [hl] at h; cases h
  | ok l =>
    rw [hl] at h
    simp only [Except.ok.injEq, Prod.mk.injEq] at h
    rw [← h.2]
    simpa [specCalls] using toolCallLoop_ok_eq (extractRegions text.data).2 0 l hl

/-- C5, witness: two well-formed regions around one malformed region produce
survivors with ids `cli_tool_0` and `cli_tool_2`. -/
theorem C5_witness :
    ([{ id := "cli_tool_0", name := Json.str "a", action := Json.str "a", params := [], input := [] },
      { id := "cli_tool_2", name := Json.str "c", action := Json.str "c", params := [], input := [] }] :
        List ToolCall) =
      specCalls ("[TOOL_CALL]\x7b\"tool\":\"a\"\x7d[/TOOL_CALL][TOOL_CALL]nope[/TOOL_CALL]" ++
        "[TOOL_CALL]\x7b\"tool\":\"c\"\x7d[/TOOL_CALL]") :=
  C5_ids_record_region_index _ "" _ rfl

/-!  ## C6 — extraction on region-free text  -/

/-- The scanner returns the text intact when it matched no region. -/
theorem scanText_no_region (fuel : Nat) (s : List Char)
    (h : (scanText (fuel + 1) s).2 = []) : (scanText (fuel + 1) s).1 = s := by
  cases hf : findSub openMark s with
  | none => simp [scanText, hf]
  | some i =>
    cases hc : findSub closeMark (s.drop (i + openMark.length)) with
    | none => simp [scanText, hf, hc]
    | some j =>
      exfalso
      simp [scanText, hf, hc] at h

/-- The scanner `extractRegions` returns the text intact when it found no region. -/
theorem extractRegions_no_region (s : List Char) (h : (extractRegions s).2 = []) :
    (extractRegions s).1 = s :=
  scanText_no_region s.length s h

/-- On a region-free text the extractor returns no invocations and the text
after `strip()` and newline collapsing. -/
theorem parse_no_regions (text : String) (h : (extractRegions text.data).2 = []) :
    parse_tool_calls_from_text text =
      Except.ok (String.mk (collapseNl (pyStrip text.data)), ([] : List ToolCall)) := by
  have h1 := extractRegions_no_region text.data h
  unfold parse_tool_calls_from_text
  rw [h, h1]
  rfl

/-- C6, counterexample: `" a "` contains zero delimited regions, yet
extraction returns `"a"` — the input is *not* returned character for
character (the source applies `.strip()` to it). -/
theorem C6_counterexample :
    parse_tool_calls_from_text " a " = Except.ok ("a", ([] : List ToolCall)) ∧
    ("a" : String) ≠ " a " := ⟨rfl, by decide⟩

/-- C6 (amended): on any input with zero delimited regions the extractor
returns an empty invocation list together with the input after stripping
surrounding whitespace and collapsing runs of three or more newlines to two —
hence character-for-character unchanged exactly when the input is already in
that normal form. -/
theorem C6_no_regions_postprocessed (text : String)
    (h : (extractRegions text.data).2 = []) :
    parse_tool_calls_from_text text =
      Except.ok (String.mk (collapseNl (pyStrip text.data)), ([] : List ToolCall)) :=
  parse_no_regions text h

/-- C6, witness: the theorem applied to `" a "`. -/
theorem C6_witness :
    (extractRegions (" a ").data).2 = [] ∧
    parse_tool_calls_from_text " a " =
      Except.ok (String.mk (collapseNl (pyStrip (" a ").data)), ([] : List ToolCall)) :=
  ⟨rfl, C6_no_regions_postprocessed " a " rfl⟩

/-!  ## C7 — idempotence of extraction  -/

/-- An input whose two well-formed regions sit between the split halves of an
outer marker pair: removal fuses the halves into a fresh delimited region. -/
def fusionText : String :=
  "[TOOL_[TOOL_CALL]\x7b\"tool\":\"a\"\x7d[/TOOL_CALL]CALL] \x7b\"tool\": \"new\"\x7d " ++
  "[/TOOL_[TOOL_CALL]\x7b\"tool\":\"b\"\x7d[/TOOL_CALL]CALL]"

/-- The cleaned text the first extraction pass returns on `fusionText`. -/
def fusionClean : String :=
  "[TOOL_CALL] \x7b\"tool\": \"new\"\x7d [/TOOL_CALL]"

/-- C7, counterexample: every delimited region of `fusionText` is well
formed, the first pass returns `fusionClean`, and re-extracting the cleaned
text finds one further invocation — extraction is not idempotent. -/
theorem C7_counterexample :
    (extractRegions fusionText.data).2.all payloadWellFormed = true ∧
    (parse_tool_calls_from_text fusionText).map (fun r => r.1) = Except.ok fusionClean ∧
    (parse_tool_calls_from_text fusionClean).map (fun r => r.2.map ToolCall.id) =
      Except.ok ["cli_tool_0"] :=
  ⟨rfl, rfl, rfl⟩

/-- C7 (amended): for an input whose delimited regions are all well formed,
re-running extraction on the cleaned text yields no further invocations
*provided* the cleaned text contains no delimited region — the purely textual
removal can otherwise fuse the surrounding text into a new region, as the
counterexample shows. -/
theorem C7_idempotent_when_region_free (text clean : String) (tcs : List ToolCall)
    (_hwf : (extractRegions text.data).2.all payloadWellFormed = true)
    (_h : parse_tool_calls_from_text text = Except.ok (clean, tcs))
    (hclean : (extractRegions clean.data).2 = []) :
    parse_tool_calls_from_text clean =
      Except.ok (String.mk (collapseNl (pyStrip clean.data)), ([] : List ToolCall)) :=
  parse_no_regions clean hclean

/-- C7, witness: a single well-formed region cleans to the empty text, whose
re-extraction yields nothing. -/
theorem C7_witness :
    (extractRegions ("[TOOL_CALL]\x7b\"tool\":\"a\"\x7d[/TOOL_CALL]" : String).data).2.all
        payloadWellFormed = true ∧
    parse_tool_calls_from_text "" =
      Except.ok (String.mk (collapseNl (pyStrip ("" : String).data)), ([] : List ToolCall)) :=
  ⟨rfl, C7_idempotent_when_region_free "[TOOL_CALL]\x7b\"tool\":\"a\"\x7d[/TOOL_CALL]" "" _ rfl rfl rfl⟩

/-!  ## C3 — subprocess timeout handling  -/

/-- C3: at the timeout outcome, the initial chat path kills the subprocess
and reports the timeout, but the tool-result continuation path returns the
`'Request timed out'` error while leaving the subprocess running — the
source's `except asyncio.TimeoutError` handler there pops the conversation
without calling `proc.kill()`. -/
theorem C3_timeout_divergence :
    chat_via_cli [] true "hi" [] 1 true CliOutcome.timesOut =
      ([], ChatCliResult.text "⚠️ Request timed out. Please try a shorter question.",
       some ProcFate.killed) ∧
    continue_cli_with_tool_results [(5, PendingConv.cli "p" [] "r")] 5 [] true
        CliOutcome.timesOut =
      ([], CliContinueResult.errorDict "Request timed out", some ProcFate.leftRunning) :=
  ⟨rfl, rfl⟩

/-!  ## C4 — unknown conversation id  -/

/-- An id reported absent by `storeHas` has no entry. -/
theorem storeGet_eq_none (store : Store) (cid : Nat) (h : storeHas store cid = false) :
    storeGet store cid = none := by
  unfold storeGet
  have hf : List.find? (fun e => decide (e.1 = cid)) store = none := by
    rw [List.find?_eq_none]
    intro e he hp
    have hx : store.any (fun e => e.1 = cid) = true := List.any_eq_true.mpr ⟨e, he, hp⟩
    rw [storeHas] at h
    rw [hx] at h
    cases h
  rw [hf]
  rfl

/-- C4: resuming with an id absent from the pending-conversation store
returns the not-found error on both continuation paths, never raises, leaves
the store unchanged (no new exchange is created), and spawns no process. -/
theorem C4_unknown_conversation (store : Store) (cid : Nat)
    (h : storeHas store cid = false) :
    (∀ trs cfgOk outcome,
      continue_cli_with_tool_results store cid trs cfgOk outcome =
        (store, CliContinueResult.errorDict "Conversation not found. Please start a new message.",
         none)) ∧
    (∀ reg trs newCid next script,
      continue_with_tool_results reg store cid trs newCid next script =
        (store, ApiContinueResult.text "Error: Conversation not found. Please start a new message.")) := by
  have hg := storeGet_eq_none store cid h
  exact ⟨fun trs cfgOk outcome => by unfold continue_cli_with_tool_results; rw [hg],
         fun reg trs newCid next script => by unfold continue_with_tool_results; rw [hg]⟩

/-- C4, witness: the theorem applied to the empty store. -/
theorem C4_witness :
    storeHas [] 0 = false ∧
    continue_cli_with_tool_results [] 0 [] true (CliOutcome.completes 0 "" "") =
      ([], CliContinueResult.errorDict "Conversation not found. Please start a new message.",
       none) ∧
    continue_with_tool_results [] [] 0 [] 1 { stop_reason := "end_turn", content := [] } [] =
      ([], ApiContinueResult.text "Error: Conversation not found. Please start a new message.") :=
  ⟨rfl,
   (C4_unknown_conversation [] 0 rfl).1 [] true (CliOutcome.completes 0 "" ""),
   (C4_unknown_conversation [] 0 rfl).2 [] [] 1 { stop_reason := "end_turn", content := [] } []⟩

/-!  ## C8 — hybrid routing of image requests  -/

/-- C8: a request carrying an image, with preference `auto`, resolved mode
`max_plan` and an API credential present, is routed through the structured
API path, and `auth_method` stays `max_plan` (so a subsequent text-only
request still routes through the CLI path). -/
theorem C8_image_hybrid_routing :
    chat_route "max_plan" "auto" true true = (ChatRoute.apiPath, "max_plan") ∧
    chat_route "max_plan" "auto" true false = (ChatRoute.cliPath, "max_plan") :=
  ⟨rfl, rfl⟩

/-!  ## C9 — unknown tool at execution time  -/

/-- C9: executing an unregistered tool name makes `ToolRegistry.execute`
raise the `Unknown tool` error; on the structured path `_handle_tool_use`
converts it into a `tool_result` marked `is_error` instead of letting the
exception escape, and the orchestrator then proceeds to the next server
response normally. -/
theorem C9_unknown_tool_reported (reg : Registry) (name : String)
    (h : registryGet reg name = none) (id : String) (input : List (String × Json))
    (store : Store) (newCid : Nat) (messages : List Msg) :
    registryExecute reg name input = Except.error ("Unknown tool: " ++ name) ∧
    processBlock reg (Block.tool_use id name input) =
      some (Sum.inr { tool_use_id := id, content := "Error: " ++ ("Unknown tool: " ++ name),
                      is_error := true }) ∧
    handle_tool_use reg store newCid messages
        { stop_reason := "tool_use", content := [Block.tool_use id name input] }
        [{ stop_reason := "end_turn", content := [Block.text "done"] }] =
      (store, HtuResult.response "done") := by
  refine ⟨?_, ?_, ?_⟩
  · simp [registryExecute, h]
  · simp [processBlock, registryExecute, h]
  · simp [handle_tool_use, processBlock, registryExecute, h, firstTextBlock]

/-- C9, witness: the theorem applied to the empty registry. -/
theorem C9_witness :
    registryGet [] "ghost" = none ∧
    processBlock [] (Block.tool_use "t1" "ghost" []) =
      some (Sum.inr { tool_use_id := "t1", content := "Error: " ++ ("Unknown tool: " ++ "ghost"),
                      is_error := true }) :=
  ⟨rfl, (C9_unknown_tool_reported [] "ghost" rfl "t1" [] [] 0 []).2.1⟩

/-!  ## C10 — workflow summary  -/

/-- C10: the summary's `node_count` is the total node count, its `nodes` list
is exactly the first 20 nodes (in original order, so at most 20 entries), and
the omission note is present — naming the number omitted — exactly when the
workflow has more than 20 nodes. -/
theorem C10_summarize (nodes : List WNode) :
    (summarize_workflow nodes).node_count = nodes.length ∧
    (summarize_workflow nodes).nodes = (nodes.map nodeInfoOf).take 20 ∧
    (summarize_workflow nodes).nodes.length = min 20 nodes.length ∧
    ((summarize_workflow nodes).note ≠ none ↔ 20 < nodes.length) ∧
    (summarize_workflow nodes).note =
      (if 20 < nodes.length then
        some ("... and " ++ toString (nodes.length - 20) ++ " more nodes")
       else none) := by
  refine ⟨rfl, ?_, ?_, ?_, rfl⟩
  · simp [summarize_workflow, List.map_take]
  · simp [summarize_workflow]
  · by_cases h : 20 < nodes.length <;> simp [summarize_workflow, h]

end ClaudeChat
